import Mathlib

/-!
Shallow embedding of the search-and-pagination pipeline of the
"explore-my-town" application, together with proofs of the spec's
testable properties.

The repository's frontend sources (`App.tsx`, `SmartMap.tsx`) are embedded
directly.  The FastAPI backend (`backend/app/main.py`) is not among the
provided sources, so the pagination layer and search endpoint are modelled
from the specification text (sections 3, 4.4, 4.5, 7); each such definition
is marked `Modelled from the spec:` in its doc comment.
-/

namespace ExploreMyTown

/-- A point-of-interest category: stable key plus human label
(frontend `interface Category`). -/
structure Category where
  key : String
  label : String
deriving DecidableEq, Repr

/-- A normalized place record (frontend `interface Place`): numeric id,
display name, coordinates, formatted address (empty string when absent),
and free-form string tags.  Coordinates are embedded as rationals. -/
structure Place where
  id : Int
  name : String
  lat : Rat
  lon : Rat
  address : String
  tags : List (String × String)
deriving DecidableEq, Repr

/-- Pagination metadata (frontend `interface PaginationInfo`). -/
structure PaginationInfo where
  page : Nat
  limit : Nat
  total_pages : Nat
  has_next : Bool
  has_prev : Bool
deriving DecidableEq, Repr

/-- Result of the pagination layer: the page slice plus its metadata. -/
structure PageResult where
  places : List Place
  count : Nat
  total_count : Nat
  pagination : PaginationInfo
deriving DecidableEq, Repr

/-- The search response envelope (frontend `interface SearchResult`). -/
structure SearchResult where
  town : String
  category : String
  places : List Place
  count : Nat
  total_count : Nat
  pagination : PaginationInfo
deriving DecidableEq, Repr

/-- Error kinds of the API (spec section 7: InvalidInput, NotFound,
Unavailable, Unexpected), each carrying a human-readable detail string. -/
inductive ApiError where
  | invalidInput (detail : String)
  | notFound (detail : String)
  | unavailable (detail : String)
  | unexpected (detail : String)
deriving DecidableEq, Repr

/-- Modelled from the spec: the configured maximum page size of the backend
(`backend/app/main.py` is not under `src/`); section 8 names 100 as the
configured maximum in its clamping example. -/
def MAX_LIMIT : Nat := 100

/-- Modelled from the spec: the effective page size used by the backend —
a requested size exceeding the configured maximum is clamped to the
maximum, not rejected (spec section 4.4). -/
def effectiveLimit (requested maxLimit : Nat) : Nat :=
  min requested maxLimit

/-- Modelled from the spec: total page count of the backend pagination
layer — the ceiling of `total_count / limit`, with minimum 1
(spec section 3, PaginationInfo). -/
def totalPages (total_count limit : Nat) : Nat :=
  max 1 ((total_count + limit - 1) / limit)

/-- Modelled from the spec: the backend pagination layer
(`backend/app/main.py` is not under `src/`).  Given the full normalized
list, a 1-based page number and a page size, it rejects page `<= 0` as an
invalid-input error, and otherwise returns the sub-slice
`[(page-1)*limit, page*limit)` clipped to the list bounds, together with
the PaginationInfo of spec section 3 (spec section 4.4). -/
def paginate (allPlaces : List Place) (page : Int) (limit : Nat) :
    Except ApiError PageResult :=
  if page ≤ 0 then
    .error (.invalidInput "Page must be a positive integer")
  else
    let p : Nat := page.toNat
    let total_count := allPlaces.length
    let total_pages := totalPages total_count limit
    let slice := (allPlaces.drop ((p - 1) * limit)).take limit
    .ok { places := slice
          count := slice.length
          total_count := total_count
          pagination :=
            { page := p
              limit := limit
              total_pages := total_pages
              has_next := decide (p < total_pages)
              has_prev := decide (1 < p) } }

/-- Modelled from the spec: the static category table (spec sections 3
and 9; the category list of the README).  Fixed, small, enumerable;
keys are stable identifiers, labels human-readable. -/
def CATEGORIES : List Category :=
  [⟨"cafe", "Cafés"⟩,
   ⟨"restaurant", "Restaurants"⟩,
   ⟨"bar", "Bars and Pubs"⟩,
   ⟨"barber", "Barbers and Hairdressers"⟩,
   ⟨"coffee_shop", "Coffee Shops"⟩,
   ⟨"cinema", "Cinemas and Theatres"⟩,
   ⟨"toilets", "Public Toilets"⟩,
   ⟨"bakery", "Bakeries"⟩,
   ⟨"pharmacy", "Pharmacies"⟩,
   ⟨"park", "Parks and Gardens"⟩]

/-- A geographic bounding region (spec glossary). -/
structure BoundingBox where
  south : Rat
  west : Rat
  north : Rat
  east : Rat
deriving DecidableEq, Repr

/-- Modelled from the spec: the backend search endpoint
(`backend/app/main.py` is not under `src/`).  The external collaborators
are parameters: `geocode` resolves a town name to a label and bounding
region (section 4.1), `queryPlaces` fetches and normalizes the matching
places for a bounding region and category key (sections 4.2–4.3; the
normalizer is folded into this parameter since no claim concerns it).
The endpoint validates the category key against the static table first,
failing with InvalidInput if unknown, then runs
geocode → query → paginate in sequence (spec sections 4.5 and 7). -/
def searchEndpoint
    (geocode : String → Except ApiError (String × BoundingBox))
    (queryPlaces : BoundingBox → String → Except ApiError (List Place))
    (town category : String) (page : Int) (requestedLimit : Nat) :
    Except ApiError SearchResult :=
  if CATEGORIES.all (fun c => c.key ≠ category) then
    .error (.invalidInput ("Invalid category: " ++ category))
  else do
    let (label, bbox) ← geocode town
    let raw ← queryPlaces bbox category
    let pr ← paginate raw page (effectiveLimit requestedLimit MAX_LIMIT)
    .ok { town := label
          category := category
          places := pr.places
          count := pr.count
          total_count := pr.total_count
          pagination := pr.pagination }

/-! Frontend: address display (`formatAddress` in `App.tsx` and
`SmartMap.tsx`, identical in all three copies). -/

/-- Zero-pads the decimal representation of `n` to 4 digits. -/
def pad4 (n : Nat) : String :=
  let s := toString n
  String.mk (List.replicate (4 - s.length) '0') ++ s

/-- JavaScript `Number.prototype.toFixed(4)`, embedded over rationals:
the decimal string with exactly 4 fraction digits whose value is nearest
to `x`, ties resolved toward the larger magnitude (ECMAScript), with a
leading minus sign for negative input.  The scaled integer
`n = floor(|x| * 10^4 + 1/2)` is computed on the numerator and
denominator directly: `(2 * |num| * 10^4 + den) / (2 * den)`. -/
def toFixed4 (x : Rat) : String :=
  let sign := if x < 0 then "-" else ""
  let n : Nat := (2 * x.num.natAbs * 10000 + x.den) / (2 * x.den)
  sign ++ toString (n / 10000) ++ "." ++ pad4 (n % 10000)

/-- JavaScript truthiness of a string: every string except `""` is truthy. -/
def jsTruthy (s : String) : Bool :=
  s ≠ ""

/-- JavaScript `String.prototype.trim`: strips leading and trailing
whitespace. -/
def jsTrim (s : String) : String :=
  String.mk
    ((((s.data.dropWhile Char.isWhitespace).reverse.dropWhile
      Char.isWhitespace)).reverse)

/-- The client-side address display (`formatAddress` in `App.tsx` /
`SmartMap.tsx`): the place's address when truthy, else the latitude and
longitude each via `toFixed(4)`, comma-separated. -/
def formatAddress (place : Place) : String :=
  if jsTruthy place.address then place.address
  else toFixed4 place.lat ++ ", " ++ toFixed4 place.lon

/-! Frontend: the search UI state machine (`App.tsx`, `src/unnamed/part_001`). -/

/-- The fixed client page size (`useState(20)` in `App.tsx`). -/
def pageSize : Nat := 20

/-- One HTTP request to the `GET /api/places` endpoint as issued by the
client (`fetch` in `handleSearch` / `handlePageChange`). -/
structure PlacesRequest where
  town : String
  category : String
  page : Int
  limit : Nat
deriving DecidableEq, Repr

/-- The React state of `App` that the search flow reads and writes. -/
structure UIState where
  town : String
  category : String
  loading : Bool
  currentPage : Int
  results : Option SearchResult
  error : String
deriving DecidableEq, Repr

/-- The user interactions of the search flow: submitting the form, and
clicking a pagination control for page `p` (Previous, Next, or a
numbered button). -/
inductive UIEvent where
  | submit
  | pageChange (p : Int)
deriving DecidableEq, Repr

/-- The submit button's `disabled` attribute:
`loading || !town.trim() || !category` (`App.tsx`). -/
def submitDisabled (s : UIState) : Bool :=
  s.loading || jsTrim s.town == "" || s.category == ""

/-- Synchronous part of `handleSearch` (`App.tsx`): guard on empty
town/category, then set loading, clear error and results, reset the
current page to 1, and issue the request for page 1.  The asynchronous
continuation (storing the response and clearing `loading` in `finally`)
is outside this step. -/
def handleSearch (s : UIState) : UIState × Option PlacesRequest :=
  if jsTrim s.town == "" || s.category == "" then (s, none)
  else
    ({ s with loading := true, error := "", results := none, currentPage := 1 },
     some { town := s.town, category := s.category, page := 1, limit := pageSize })

/-- Synchronous part of `handlePageChange` (`App.tsx`): guard on empty
town/category or an in-flight request, then set loading, clear the error,
and issue the request for the requested page with the same town and
category.  (`setCurrentPage(page)` runs only in the asynchronous success
continuation.) -/
def handlePageChange (s : UIState) (p : Int) : UIState × Option PlacesRequest :=
  if jsTrim s.town == "" || s.category == "" || s.loading then (s, none)
  else
    ({ s with loading := true, error := "" },
     some { town := s.town, category := s.category, page := p, limit := pageSize })

/-- One UI interaction, dispatched through the controls: a submit reaches
`handleSearch` only when the submit button is enabled; every pagination
button carries `disabled={loading}` (Previous and Next additionally
require `has_prev` / `has_next`, which constrains only which `p` can
occur, not the dispatch modelled here). -/
def uiStep (s : UIState) : UIEvent → UIState × Option PlacesRequest
  | .submit => if submitDisabled s then (s, none) else handleSearch s
  | .pageChange p => if s.loading then (s, none) else handlePageChange s p

/-! Frontend: the SmartMap component (`SmartMap.tsx`, `src/unnamed/part_002`). -/

/-- A Leaflet `LatLngBounds`: the smallest south-west / north-east box. -/
structure LatLngBounds where
  south : Rat
  west : Rat
  north : Rat
  east : Rat
deriving DecidableEq, Repr

/-- Extends a bounds box to include one more point
(Leaflet `LatLngBounds.extend`). -/
def extendBounds (b : LatLngBounds) (q : Place) : LatLngBounds :=
  { south := min b.south q.lat
    west := min b.west q.lon
    north := max b.north q.lat
    east := max b.east q.lon }

/-- Leaflet `L.latLngBounds` applied to the places' coordinate list:
`none` on the empty list (an empty Leaflet bounds object is invalid),
else the smallest box containing every coordinate. -/
def latLngBounds : List Place → Option LatLngBounds
  | [] => none
  | p :: ps =>
    some (ps.foldl extendBounds
      { south := p.lat, west := p.lon, north := p.lat, east := p.lon })

/-- The `MapBounds` effect (`SmartMap.tsx`): runs on every change of
`places`; when the list is non-empty it calls
`map.fitBounds(L.latLngBounds(places))`, and otherwise does nothing.
The returned value is the bounds passed to `fitBounds`, or `none` when
`fitBounds` is not called. -/
def mapBoundsEffect (places : List Place) : Option LatLngBounds :=
  if places.length > 0 then latLngBounds places else none

/-- The initial map center (`SmartMap.tsx`): the coordinate-wise
`reduce`-sum divided by the length when `places` is non-empty, else the
fixed default `[48.8566, 2.3522]`. -/
def smartMapCenter (places : List Place) : Rat × Rat :=
  if places.length > 0 then
    (places.foldl (fun sum p => sum + p.lat) 0 / places.length,
     places.foldl (fun sum p => sum + p.lon) 0 / places.length)
  else (48.8566, 2.3522)

/-- What one render of `SmartMap` produces: the map center, the pending
`MapBounds` fit action, one marker per place (keyed by id, positioned at
`[lat, lon]`), and the HTTP requests the component issues — none, as the
component contains no fetch call. -/
structure SmartMapRender where
  center : Rat × Rat
  boundsAction : Option LatLngBounds
  markers : List (Int × (Rat × Rat))
  requests : List PlacesRequest
deriving DecidableEq, Repr

/-- One render of `SmartMap` (`SmartMap.tsx`) on a given place list. -/
def smartMapRender (places : List Place) : SmartMapRender :=
  { center := smartMapCenter places
    boundsAction := mapBoundsEffect places
    markers := places.map (fun p => (p.id, (p.lat, p.lon)))
    requests := [] }

/-! Frontend: the pagination controls of `App.tsx`. -/

/-- Whether the pagination controls block is rendered at all
(`results.pagination.total_pages > 1 && ...` in `App.tsx`). -/
def paginationControlsRendered (total_pages : Nat) : Bool :=
  total_pages > 1

/-- The numbered page buttons of `App.tsx`: `Math.min(5, total_pages)`
buttons, whose labels follow the window computation on
`total_pages` and `currentPage`. -/
def pageWindow (total_pages currentPage : Int) : List Int :=
  (List.range (min 5 total_pages).toNat).map (fun (i : Nat) =>
    if total_pages ≤ 5 then (i : Int) + 1
    else if currentPage ≤ 3 then (i : Int) + 1
    else if currentPage ≥ total_pages - 2 then total_pages - 4 + (i : Int)
    else currentPage - 2 + (i : Int))

/-- A sample place with no address, used in concrete instantiations. -/
def placeA : Place :=
  { id := 1, name := "Cafe Aurore", lat := 1, lon := 2, address := "", tags := [] }

/-- A sample place with an address, used in concrete instantiations. -/
def placeB : Place :=
  { id := 2, name := "Cafe Brume", lat := 3, lon := 5,
    address := "12 High St", tags := [] }

/-- A third sample place, used in concrete instantiations. -/
def placeC : Place :=
  { id := 3, name := "Cafe Cendre", lat := 4, lon := 7, address := "", tags := [] }

/-! ## Helper lemmas on the pagination arithmetic -/

theorem totalPages_pos (tc limit : Nat) : 1 ≤ totalPages tc limit :=
  le_max_left 1 _

theorem totalPages_of_zero (limit : Nat) (hl : 1 ≤ limit) :
    totalPages 0 limit = 1 := by
  unfold totalPages
  have h0 : (0 + limit - 1) / limit = 0 := Nat.div_eq_of_lt (by omega)
  omega

theorem le_totalPages_mul (tc limit : Nat) (hl : 1 ≤ limit) :
    tc ≤ totalPages tc limit * limit := by
  unfold totalPages
  rcases Nat.eq_zero_or_pos ((tc + limit - 1) / limit) with hq | hq
  · have h0 : tc + limit - 1 < limit := (Nat.div_eq_zero_iff (by omega)).mp hq
    rw [hq]
    omega
  · rw [Nat.max_eq_right hq, Nat.mul_comm]
    have hdm := Nat.div_add_mod (tc + limit - 1) limit
    have hr : (tc + limit - 1) % limit < limit := Nat.mod_lt _ (by omega)
    omega

theorem totalPages_pred_mul_lt (tc limit : Nat) (hl : 1 ≤ limit) (htc : 1 ≤ tc) :
    (totalPages tc limit - 1) * limit < tc := by
  unfold totalPages
  have hq1 : 1 ≤ (tc + limit - 1) / limit :=
    (Nat.one_le_div_iff (by omega)).mpr (by omega)
  rw [Nat.max_eq_right hq1, Nat.sub_one_mul, Nat.mul_comm]
  have hdm := Nat.div_add_mod (tc + limit - 1) limit
  have hr : (tc + limit - 1) % limit < limit := Nat.mod_lt _ (by omega)
  omega

/-- Inversion of a successful `paginate` call: the page was positive, and
every field of the result is determined. -/
theorem paginate_ok {places : List Place} {page : Int} {limit : Nat}
    {r : PageResult} (h : paginate places page limit = .ok r) :
    1 ≤ page ∧
    r.places = (places.drop ((page.toNat - 1) * limit)).take limit ∧
    r.count = r.places.length ∧
    r.total_count = places.length ∧
    r.pagination.page = page.toNat ∧
    r.pagination.limit = limit ∧
    r.pagination.total_pages = totalPages places.length limit ∧
    r.pagination.has_next = decide (page.toNat < totalPages places.length limit) ∧
    r.pagination.has_prev = decide (1 < page.toNat) := by
  unfold paginate at h
  split at h
  · exact absurd h (by simp)
  · rename_i hpage
    injection h with h
    subst h
    refine ⟨by omega, rfl, rfl, rfl, rfl, rfl, rfl, rfl, rfl⟩

/-! ## Claim theorems -/

/-- C1: for every `total_count ≥ 0` and every valid page size `limit ≥ 1`,
the pagination metadata produced by the pagination layer satisfies
`total_pages = ceil(total_count / limit)` — characterized by
`total_count ≤ total_pages * limit` and `(total_pages - 1) * limit <
total_count` when `total_count ≥ 1` — and `total_pages ≥ 1` even when
`total_count = 0`. -/
theorem total_pages_is_ceil_min_one (places : List Place) (page : Int)
    (limit : Nat) (r : PageResult) (hl : 1 ≤ limit)
    (hok : paginate places page limit = .ok r) :
    1 ≤ r.pagination.total_pages ∧
    (r.total_count = 0 → r.pagination.total_pages = 1) ∧
    (1 ≤ r.total_count →
      r.total_count ≤ r.pagination.total_pages * limit ∧
      (r.pagination.total_pages - 1) * limit < r.total_count) := by
  obtain ⟨-, -, -, htc, -, -, htp, -, -⟩ := paginate_ok hok
  rw [htc, htp]
  refine ⟨totalPages_pos _ _, ?_, ?_⟩
  · intro h0
    rw [h0, totalPages_of_zero limit hl]
  · intro h1
    exact ⟨le_totalPages_mul _ _ hl, totalPages_pred_mul_lt _ _ hl h1⟩

/-- C1 witness: the concrete instance of spec section 8's example —
47 places at page size 20 give 3 total pages. -/
theorem total_pages_is_ceil_min_one_witness :
    1 ≤ (3 : Nat) ∧ ((47 : Nat) = 0 → (3 : Nat) = 1) ∧
    (1 ≤ (47 : Nat) → (47 : Nat) ≤ 3 * 20 ∧ ((3 : Nat) - 1) * 20 < 47) :=
  total_pages_is_ceil_min_one (List.replicate 47 placeA) 1 20
    { places := List.replicate 20 placeA
      count := 20
      total_count := 47
      pagination :=
        { page := 1, limit := 20, total_pages := 3
          has_next := true, has_prev := false } }
    (by decide) rfl

/-- C2: every PaginationInfo the pagination layer produces has a 1-based
page in `[1, total_pages]`-compatible form and satisfies
`has_prev = (page > 1)` and `has_next = (page < total_pages)`. -/
theorem pagination_flags_invariant (places : List Place) (page : Int)
    (limit : Nat) (r : PageResult)
    (hok : paginate places page limit = .ok r) :
    1 ≤ r.pagination.page ∧
    1 ≤ r.pagination.total_pages ∧
    r.pagination.has_prev = decide (1 < r.pagination.page) ∧
    r.pagination.has_next = decide (r.pagination.page < r.pagination.total_pages) := by
  obtain ⟨hpage, -, -, -, hp, -, htp, hnext, hprev⟩ := paginate_ok hok
  rw [hp, htp] at *
  exact ⟨by omega, totalPages_pos _ _, hprev, hnext⟩

/-- C2 witness: page 2 of an empty list at page size 20 — `has_prev` is
true (page 2 > 1) and `has_next` is false (page 2 is not below the single
total page). -/
theorem pagination_flags_invariant_witness :
    1 ≤ (PaginationInfo.mk 2 20 1 false true).page ∧
    1 ≤ (PaginationInfo.mk 2 20 1 false true).total_pages ∧
    (PaginationInfo.mk 2 20 1 false true).has_prev =
      decide (1 < (PaginationInfo.mk 2 20 1 false true).page) ∧
    (PaginationInfo.mk 2 20 1 false true).has_next =
      decide ((PaginationInfo.mk 2 20 1 false true).page <
        (PaginationInfo.mk 2 20 1 false true).total_pages) :=
  pagination_flags_invariant [] 2 20
    { places := [], count := 0, total_count := 0
      pagination := { page := 2, limit := 20, total_pages := 1
                      has_next := false, has_prev := true } }
    rfl

/-- C3: for every normalized list, page `≥ 1` and valid page size, the
pagination layer returns exactly the sub-slice `[(page-1)*limit,
page*limit)` clipped to the list bounds — element `i` of the returned
slice is element `(page-1)*limit + i` of the full list, and the slice has
at most `limit` elements — and a page beyond `total_pages` yields an
empty slice with `count = 0` while `total_count` stays the full length. -/
theorem paginate_returns_clipped_window (places : List Place) (page : Int)
    (limit : Nat) (r : PageResult) (hl : 1 ≤ limit)
    (hok : paginate places page limit = .ok r) :
    (∀ i : Nat, i < limit →
      r.places[i]? = places[(page.toNat - 1) * limit + i]?) ∧
    r.places.length ≤ limit ∧
    r.count = r.places.length ∧
    r.total_count = places.length ∧
    (totalPages places.length limit < page.toNat →
      r.places = [] ∧ r.count = 0) := by
  obtain ⟨hpage, hpl, hcount, htc, -, -, -, -, -⟩ := paginate_ok hok
  refine ⟨?_, ?_, hcount, htc, ?_⟩
  · intro i hi
    rw [hpl, List.getElem?_take, if_pos hi, List.getElem?_drop]
  · rw [hpl]
    exact le_trans (List.length_take_le _ _) (le_refl _)
  · intro hbeyond
    have h1 : places.length ≤ totalPages places.length limit * limit :=
      le_totalPages_mul _ _ hl
    have h2 : totalPages places.length limit * limit ≤ (page.toNat - 1) * limit :=
      Nat.mul_le_mul_right _ (by omega)
    have hnil : (places.drop ((page.toNat - 1) * limit)) = [] :=
      List.drop_eq_nil_of_le (by omega)
    rw [hpl, hnil, List.take_nil] at hcount ⊢
    exact ⟨rfl, by simpa using hcount⟩

/-- C3 witness: three places at page size 2 — page 2 holds exactly the
third place, and page 3 (beyond the 2 total pages) is empty with the
total count unchanged. -/
theorem paginate_returns_clipped_window_witness :
    ((∀ i : Nat, i < 2 →
      [placeC][i]? = [placeA, placeB, placeC][((2 : Int).toNat - 1) * 2 + i]?) ∧
     [placeC].length ≤ 2 ∧ (1 : Nat) = [placeC].length ∧
     (3 : Nat) = [placeA, placeB, placeC].length ∧
     (totalPages [placeA, placeB, placeC].length 2 < (2 : Int).toNat →
       [placeC] = ([] : List Place) ∧ (1 : Nat) = 0)) ∧
    (totalPages [placeA, placeB, placeC].length 2 < (3 : Int).toNat →
      ([] : List Place) = [] ∧ (0 : Nat) = 0) :=
  ⟨paginate_returns_clipped_window [placeA, placeB, placeC] 2 2
    { places := [placeC], count := 1, total_count := 3
      pagination := { page := 2, limit := 2, total_pages := 2
                      has_next := false, has_prev := true } }
    (by decide) rfl,
   (paginate_returns_clipped_window [placeA, placeB, placeC] 3 2
    { places := [], count := 0, total_count := 3
      pagination := { page := 3, limit := 2, total_pages := 2
                      has_next := false, has_prev := true } }
    (by decide) rfl).2.2.2.2⟩

/-- C4: the pagination layer fails — with an invalid-input error — exactly
when the requested page is zero or negative; for every page `≥ 1` it
succeeds; and a requested page size above the configured maximum is
clamped to the maximum, never rejected. -/
theorem paginate_error_exactly_nonpositive_page (places : List Place)
    (page : Int) (limit : Nat) :
    (page ≤ 0 →
      paginate places page limit =
        .error (.invalidInput "Page must be a positive integer")) ∧
    (1 ≤ page → ∃ r, paginate places page limit = .ok r) ∧
    (∀ requested maxL : Nat,
      effectiveLimit requested maxL ≤ maxL ∧
      (requested ≤ maxL → effectiveLimit requested maxL = requested) ∧
      (maxL ≤ requested → effectiveLimit requested maxL = maxL)) := by
  refine ⟨?_, ?_, ?_⟩
  · intro h
    unfold paginate
    rw [if_pos h]
  · intro h
    refine ⟨{ places := (places.drop ((page.toNat - 1) * limit)).take limit
              count := ((places.drop ((page.toNat - 1) * limit)).take limit).length
              total_count := places.length
              pagination :=
                { page := page.toNat
                  limit := limit
                  total_pages := totalPages places.length limit
                  has_next := decide (page.toNat < totalPages places.length limit)
                  has_prev := decide (1 < page.toNat) } }, ?_⟩
    unfold paginate
    rw [if_neg (by omega)]
  · intro requested maxL
    unfold effectiveLimit
    exact ⟨Nat.min_le_right _ _, fun h => Nat.min_eq_left h,
      fun h => Nat.min_eq_right h⟩

/-- C4 witness: page 0 is rejected as invalid input, page 1 succeeds, and
the spec's example — requested size 1000 against configured maximum
100 — clamps to 100. -/
theorem paginate_error_exactly_nonpositive_page_witness :
    paginate [placeA] 0 20 =
      .error (.invalidInput "Page must be a positive integer") ∧
    (∃ r, paginate [placeA] 1 20 = .ok r) ∧
    effectiveLimit 1000 MAX_LIMIT = MAX_LIMIT :=
  ⟨(paginate_error_exactly_nonpositive_page [placeA] 0 20).1 (by decide),
   (paginate_error_exactly_nonpositive_page [placeA] 1 20).2.1 (by decide),
   ((paginate_error_exactly_nonpositive_page [placeA] 1 20).2.2 1000
     MAX_LIMIT).2.2 (by decide)⟩

/-- C5: a search request whose category key is not in the static category
table fails with an invalid-input error naming the category; it never
returns a result envelope. -/
theorem unknown_category_rejected
    (geocode : String → Except ApiError (String × BoundingBox))
    (queryPlaces : BoundingBox → String → Except ApiError (List Place))
    (town category : String) (page : Int) (requestedLimit : Nat)
    (h : ∀ c ∈ CATEGORIES, c.key ≠ category) :
    searchEndpoint geocode queryPlaces town category page requestedLimit =
      .error (.invalidInput ("Invalid category: " ++ category)) ∧
    ∀ res : SearchResult,
      searchEndpoint geocode queryPlaces town category page requestedLimit ≠
        .ok res := by
  have hcond : CATEGORIES.all (fun c => decide (c.key ≠ category)) = true := by
    rw [List.all_eq_true]
    intro c hc
    exact decide_eq_true (h c hc)
  constructor
  · unfold searchEndpoint
    rw [if_pos hcond]
  · intro res hres
    unfold searchEndpoint at hres
    rw [if_pos hcond] at hres
    exact Except.noConfusion hres

/-- C5 witness: the unknown key `"museum"` is rejected with an
invalid-input error regardless of what the upstream services would have
returned. -/
theorem unknown_category_rejected_witness :
    searchEndpoint (fun _ => .ok ("Paris", ⟨0, 0, 1, 1⟩))
        (fun _ _ => .ok [placeA]) "Paris" "museum" 1 20 =
      .error (.invalidInput ("Invalid category: " ++ "museum")) ∧
    ∀ res : SearchResult,
      searchEndpoint (fun _ => .ok ("Paris", ⟨0, 0, 1, 1⟩))
          (fun _ _ => .ok [placeA]) "Paris" "museum" 1 20 ≠
        .ok res :=
  unknown_category_rejected _ _ "Paris" "museum" 1 20 (by decide)

/-- C6: the client-side address display returns the place's address string
whenever it is non-empty, and otherwise falls back to the raw
coordinates, each rendered to 4 decimal places and comma-separated. -/
theorem formatAddress_address_or_coords (place : Place) :
    (place.address ≠ "" → formatAddress place = place.address) ∧
    (place.address = "" →
      formatAddress place =
        toFixed4 place.lat ++ ", " ++ toFixed4 place.lon) := by
  unfold formatAddress jsTruthy
  by_cases h : place.address = ""
  · rw [if_neg (by simp [h])]
    exact ⟨fun hne => absurd h hne, fun _ => rfl⟩
  · rw [if_pos (by simp [h])]
    exact ⟨fun _ => rfl, fun he => absurd he h⟩

/-- C6 witness: a place with an address shows it verbatim; a place with an
empty address at coordinates 48.85661, 2.35 shows "48.8566, 2.3500". -/
theorem formatAddress_address_or_coords_witness :
    formatAddress placeB = placeB.address ∧
    formatAddress
        { id := 9, name := "Cafe Degel", lat := mkRat 4885661 100000
          lon := mkRat 235 100, address := "", tags := [] } =
      "48.8566, 2.3500" :=
  ⟨(formatAddress_address_or_coords placeB).1 (by decide),
   by
    rw [(formatAddress_address_or_coords _).2 rfl]
    decide⟩

/-- The loading flag blocks every request: when a request is in flight,
no UI interaction reaches a fetch. -/
theorem uiStep_none_of_loading (s : UIState) (e : UIEvent)
    (hl : s.loading = true) : (uiStep s e).2 = none := by
  cases e with
  | submit =>
    simp only [uiStep]
    rw [if_pos (by simp [submitDisabled, hl])]
  | pageChange p =>
    simp only [uiStep]
    rw [if_pos hl]

/-- C7: whenever a UI interaction issues a request, no request was in
flight (the controls are disabled while `loading`); a form submit
requests page 1 and resets the current page to 1; a page-control
interaction for page `p` requests exactly page `p`; every request reuses
the state's town and category and the fixed page size; and issuing a
request sets `loading`, so no further request starts until the response
handler clears it. -/
theorem ui_request_discipline (s : UIState) (e : UIEvent)
    (r : PlacesRequest) (h : (uiStep s e).2 = some r) :
    s.loading = false ∧
    r.town = s.town ∧
    r.category = s.category ∧
    r.limit = pageSize ∧
    (e = .submit → r.page = 1 ∧ (uiStep s e).1.currentPage = 1) ∧
    (∀ p, e = .pageChange p → r.page = p) ∧
    (uiStep s e).1.loading = true := by
  have hload : s.loading = false := by
    by_contra hc
    rw [uiStep_none_of_loading s e (by simpa using hc)] at h
    exact Option.noConfusion h
  cases e with
  | submit =>
    simp only [uiStep] at h ⊢
    by_cases hd : submitDisabled s = true
    · rw [if_pos hd] at h
      exact absurd h (by simp)
    · rw [if_neg hd] at h ⊢
      unfold handleSearch at h ⊢
      by_cases hg : (jsTrim s.town == "" || s.category == "") = true
      · rw [if_pos hg] at h
        exact absurd h (by simp)
      · rw [if_neg hg] at h ⊢
        injection h with h
        subst h
        exact ⟨hload, rfl, rfl, rfl, fun _ => ⟨rfl, rfl⟩,
          fun p hp => UIEvent.noConfusion hp, rfl⟩
  | pageChange p =>
    simp only [uiStep] at h ⊢
    rw [if_neg (by simp [hload])] at h ⊢
    unfold handlePageChange at h ⊢
    by_cases hg : (jsTrim s.town == "" || s.category == "" || s.loading) = true
    · rw [if_pos hg] at h
      exact absurd h (by simp)
    · rw [if_neg hg] at h ⊢
      injection h with h
      subst h
      exact ⟨hload, rfl, rfl, rfl, fun hc => UIEvent.noConfusion hc,
        fun q hq => by cases hq; rfl, rfl⟩

/-- C7 witness: from an idle state for Paris cafés on page 3, clicking
the page-2 control issues exactly one request for page 2 with the same
town and category and marks the UI as loading. -/
theorem ui_request_discipline_witness :
    (UIState.mk "Paris" "cafe" false 3 none "").loading = false ∧
    (PlacesRequest.mk "Paris" "cafe" 2 20).town = "Paris" ∧
    (PlacesRequest.mk "Paris" "cafe" 2 20).category = "cafe" ∧
    (PlacesRequest.mk "Paris" "cafe" 2 20).limit = pageSize ∧
    (UIEvent.pageChange 2 = UIEvent.submit →
      (PlacesRequest.mk "Paris" "cafe" 2 20).page = 1 ∧
      (uiStep (UIState.mk "Paris" "cafe" false 3 none "")
        (UIEvent.pageChange 2)).1.currentPage = 1) ∧
    (∀ p, UIEvent.pageChange 2 = UIEvent.pageChange p →
      (PlacesRequest.mk "Paris" "cafe" 2 20).page = p) ∧
    (uiStep (UIState.mk "Paris" "cafe" false 3 none "")
      (UIEvent.pageChange 2)).1.loading = true :=
  ui_request_discipline (UIState.mk "Paris" "cafe" false 3 none "")
    (UIEvent.pageChange 2) (PlacesRequest.mk "Paris" "cafe" 2 20) rfl

/-- Folding `extendBounds` only widens a bounds box. -/
theorem foldl_extendBounds_mono (ps : List Place) (b : LatLngBounds) :
    (ps.foldl extendBounds b).south ≤ b.south ∧
    b.north ≤ (ps.foldl extendBounds b).north ∧
    (ps.foldl extendBounds b).west ≤ b.west ∧
    b.east ≤ (ps.foldl extendBounds b).east := by
  induction ps generalizing b with
  | nil => exact ⟨le_refl _, le_refl _, le_refl _, le_refl _⟩
  | cons q ps ih =>
    obtain ⟨h1, h2, h3, h4⟩ := ih (extendBounds b q)
    simp only [List.foldl_cons]
    exact ⟨le_trans h1 (min_le_left _ _),
      le_trans (le_max_left _ _) h2,
      le_trans h3 (min_le_left _ _),
      le_trans (le_max_left _ _) h4⟩

/-- Every place folded into a bounds box ends up inside it. -/
theorem foldl_extendBounds_mem (ps : List Place) :
    ∀ (b : LatLngBounds) (p : Place), p ∈ ps →
      (ps.foldl extendBounds b).south ≤ p.lat ∧
      p.lat ≤ (ps.foldl extendBounds b).north ∧
      (ps.foldl extendBounds b).west ≤ p.lon ∧
      p.lon ≤ (ps.foldl extendBounds b).east := by
  induction ps with
  | nil =>
    intro b p hp
    cases hp
  | cons q ps ih =>
    intro b p hp
    simp only [List.foldl_cons]
    rcases List.mem_cons.mp hp with hq | hmem
    · subst hq
      obtain ⟨h1, h2, h3, h4⟩ := foldl_extendBounds_mono ps (extendBounds b p)
      exact ⟨le_trans h1 (min_le_right _ _),
        le_trans (le_max_right _ _) h2,
        le_trans h3 (min_le_right _ _),
        le_trans (le_max_right _ _) h4⟩
    · exact ih (extendBounds b q) p hmem

/-- C8: the map view's fit action on any change of the displayed place
set targets exactly the bounding box of that set — the fitted box (when
the set has one, i.e. when it is non-empty) contains every displayed
place's coordinates — and the map component renders one marker per given
place, at that place's position, while issuing no requests of its own. -/
theorem smartMap_pure_renderer_fits_bounds (places : List Place) :
    (smartMapRender places).boundsAction = latLngBounds places ∧
    (∀ b, latLngBounds places = some b →
      ∀ p ∈ places,
        b.south ≤ p.lat ∧ p.lat ≤ b.north ∧
        b.west ≤ p.lon ∧ p.lon ≤ b.east) ∧
    (places ≠ [] → (latLngBounds places).isSome = true) ∧
    (smartMapRender places).markers =
      places.map (fun p => (p.id, (p.lat, p.lon))) ∧
    (smartMapRender places).requests = [] := by
  refine ⟨?_, ?_, ?_, rfl, rfl⟩
  · cases places with
    | nil => rfl
    | cons q ps =>
      simp only [smartMapRender, mapBoundsEffect]
      rw [if_pos (by simp)]
  · intro b hb p hp
    cases places with
    | nil => exact absurd hb (by simp [latLngBounds])
    | cons q ps =>
      unfold latLngBounds at hb
      injection hb with hb
      subst hb
      rcases List.mem_cons.mp hp with hq | hmem
      · subst hq
        obtain ⟨h1, h2, h3, h4⟩ := foldl_extendBounds_mono ps
          { south := p.lat, west := p.lon, north := p.lat, east := p.lon }
        exact ⟨h1, h2, h3, h4⟩
      · exact foldl_extendBounds_mem ps _ p hmem
  · intro hne
    cases places with
    | nil => exact absurd rfl hne
    | cons q ps => rfl

/-- C8 witness: for the two-place list `[placeA, placeB]` the fit action
targets the box `⟨1, 2, 3, 5⟩`, which contains `placeB`; the markers are
exactly the two places' id/position pairs and no request is issued. -/
theorem smartMap_pure_renderer_fits_bounds_witness :
    (smartMapRender [placeA, placeB]).boundsAction =
      latLngBounds [placeA, placeB] ∧
    ((LatLngBounds.mk 1 2 3 5).south ≤ placeB.lat ∧
      placeB.lat ≤ (LatLngBounds.mk 1 2 3 5).north ∧
      (LatLngBounds.mk 1 2 3 5).west ≤ placeB.lon ∧
      placeB.lon ≤ (LatLngBounds.mk 1 2 3 5).east) ∧
    (smartMapRender [placeA, placeB]).markers =
      [placeA, placeB].map (fun p => (p.id, (p.lat, p.lon))) ∧
    (smartMapRender [placeA, placeB]).requests = [] :=
  ⟨(smartMap_pure_renderer_fits_bounds [placeA, placeB]).1,
   (smartMap_pure_renderer_fits_bounds [placeA, placeB]).2.1
     (LatLngBounds.mk 1 2 3 5) (by decide) placeB (by decide),
   (smartMap_pure_renderer_fits_bounds [placeA, placeB]).2.2.2.1,
   (smartMap_pure_renderer_fits_bounds [placeA, placeB]).2.2.2.2⟩

/-- Folding the running coordinate sum equals the initial value plus the
list sum of the projection. -/
theorem foldl_add_proj (f : Place → Rat) (l : List Place) (a : Rat) :
    l.foldl (fun sum p => sum + f p) a = a + (l.map f).sum := by
  induction l generalizing a with
  | nil => simp
  | cons p l ih =>
    simp only [List.foldl_cons, List.map_cons, List.sum_cons, ih, add_assoc]

/-- C9: on an empty place list `SmartMap` performs no `fitBounds` call and
centers at the fixed default `(48.8566, 2.3522)`; on a non-empty list the
initial center is the arithmetic mean of the latitudes and of the
longitudes. -/
theorem smartMap_center_mean_or_default (places : List Place)
    (hne : places ≠ []) :
    mapBoundsEffect [] = none ∧
    smartMapCenter [] = (48.8566, 2.3522) ∧
    smartMapCenter places =
      ((places.map Place.lat).sum / (places.length : Rat),
       (places.map Place.lon).sum / (places.length : Rat)) := by
  refine ⟨rfl, rfl, ?_⟩
  unfold smartMapCenter
  rw [if_pos (by simpa using List.length_pos.mpr hne)]
  rw [foldl_add_proj Place.lat places 0, foldl_add_proj Place.lon places 0,
    zero_add, zero_add]

/-- C9 witness: the nonconditional conclusions at the singleton list
`[placeA]`. -/
theorem smartMap_center_mean_or_default_witness :
    mapBoundsEffect [] = none ∧
    smartMapCenter [] = (48.8566, 2.3522) ∧
    smartMapCenter [placeA] =
      (([placeA].map Place.lat).sum / (([placeA].length : Nat) : Rat),
       ([placeA].map Place.lon).sum / (([placeA].length : Nat) : Rat)) :=
  smartMap_center_mean_or_default [placeA] (by simp)

/-- C10: the pagination controls render only when `total_pages > 1`;
exactly `min(5, total_pages)` numbered buttons appear (hence at most
that many); and for `1 ≤ currentPage ≤ total_pages` every displayed page
number lies in `[1, total_pages]` with the current page always among
them. -/
theorem pagination_window_in_range (total_pages : Nat) (currentPage : Int) :
    (paginationControlsRendered total_pages = true ↔ 1 < total_pages) ∧
    (pageWindow (total_pages : Int) currentPage).length =
      (min 5 (total_pages : Int)).toNat ∧
    (1 ≤ currentPage → currentPage ≤ (total_pages : Int) →
      (∀ n ∈ pageWindow (total_pages : Int) currentPage,
        1 ≤ n ∧ n ≤ (total_pages : Int)) ∧
      currentPage ∈ pageWindow (total_pages : Int) currentPage) := by
  refine ⟨by simp [paginationControlsRendered],
    by simp only [pageWindow, List.length_map, List.length_range], ?_⟩
  intro hcp1 hcp2
  constructor
  · intro n hn
    simp only [pageWindow] at hn
    obtain ⟨i, hi, rfl⟩ := List.mem_map.mp hn
    rw [List.mem_range] at hi
    by_cases h5 : (total_pages : Int) ≤ 5
    · simp only [if_pos h5]
      omega
    · by_cases h3 : currentPage ≤ 3
      · simp only [if_neg h5, if_pos h3]
        omega
      · by_cases h2 : currentPage ≥ (total_pages : Int) - 2
        · simp only [if_neg h5, if_neg h3, if_pos h2]
          omega
        · simp only [if_neg h5, if_neg h3, if_neg h2]
          omega
  · unfold pageWindow
    apply List.mem_map.mpr
    by_cases h5 : (total_pages : Int) ≤ 5
    · refine ⟨(currentPage - 1).toNat, List.mem_range.mpr (by omega), ?_⟩
      simp only [if_pos h5]
      omega
    · by_cases h3 : currentPage ≤ 3
      · refine ⟨(currentPage - 1).toNat, List.mem_range.mpr (by omega), ?_⟩
        simp only [if_neg h5, if_pos h3]
        omega
      · by_cases h2 : currentPage ≥ (total_pages : Int) - 2
        · refine ⟨(currentPage - (total_pages : Int) + 4).toNat,
            List.mem_range.mpr (by omega), ?_⟩
          simp only [if_neg h5, if_neg h3, if_pos h2]
          omega
        · refine ⟨2, List.mem_range.mpr (by omega), ?_⟩
          simp only [if_neg h5, if_neg h3, if_neg h2]
          omega

/-- C10 witness: 7 total pages with current page 4 — 5 buttons, all in
`[1, 7]`, with page 4 among them. -/
theorem pagination_window_in_range_witness :
    (paginationControlsRendered 7 = true ↔ 1 < (7 : Nat)) ∧
    (pageWindow ((7 : Nat) : Int) 4).length = (min 5 ((7 : Nat) : Int)).toNat ∧
    (1 ≤ (4 : Int) → (4 : Int) ≤ ((7 : Nat) : Int) →
      (∀ n ∈ pageWindow ((7 : Nat) : Int) 4,
        1 ≤ n ∧ n ≤ ((7 : Nat) : Int)) ∧
      (4 : Int) ∈ pageWindow ((7 : Nat) : Int) 4) :=
  pagination_window_in_range 7 4

end ExploreMyTown
